import Mathlib

/-!
Verification of the `davinci-resolve-mcp` connection cache and lookup helpers.

Shallow embedding of:
  * `exceptions.py` — the two typed error kinds (plus the Python exceptions
    that cross the bridge boundary: `AttributeError` and any other `Exception`);
  * `tools/_helpers.py` — `VALID_TRACK_TYPES`, `require_timeline`, `find_item`;
  * `resolve_api.py` — `_load_resolve_script`, `ResolveAPI._connect`,
    `ResolveAPI._ensure_connected`, singleton `get_instance` / `reset`;
  * `resources/system_info.py` — the `resolve://system` resource body;
  * `tools/project.py` — `project_list`'s exception-wrapping boundary.

The external application (DaVinci Resolve) is opaque: its behaviour is
supplied as explicit environment records (which calls succeed, what they
return, which exception they raise).  Monotonic clock readings are rationals;
Python exceptions are values of `PyError`; a fallible Python call is an
`Except PyError` value.  External calls made during an operation are logged
in an explicit trace list so "makes no external call" is a provable statement.
-/

/-- Python exceptions that occur in the modelled code.  The two typed kinds
come from `exceptions.py`; `attributeError` is Python's built-in
`AttributeError` (the stale-reference failure mode of the bridge);
`otherError` stands for any other `Exception`.  Each constructor carries
the data needed to rebuild `str(exc)`. -/
inductive PyError where
  | resolveNotRunning (msg : String)
  | resolveOperationFailed (operation : String) (detail : String)
  | attributeError (msg : String)
  | otherError (msg : String)
deriving DecidableEq, Repr

/-- `ResolveNotRunning.__init__`: a `None` message falls back to the default
string (exceptions.py lines 18-23). -/
def mkResolveNotRunning (message : Option String) : PyError :=
  PyError.resolveNotRunning
    (message.getD "DaVinci Resolve is not running. Please open it and try again.")

/-- `ResolveOperationFailed.__init__` (exceptions.py lines 28-33): the final
message includes the operation name, and the detail when non-empty
(Python `if detail:` is false exactly on the empty string). -/
def resolveOperationFailedMessage (operation : String) (detail : String) : String :=
  if detail = "" then "Resolve operation failed: " ++ operation
  else "Resolve operation failed: " ++ operation ++ " — " ++ detail

/-- Python `str(exc)` for the exceptions we model (the message passed to
the exception constructor). -/
def PyError.str : PyError → String
  | .resolveNotRunning m => m
  | .resolveOperationFailed op d => resolveOperationFailedMessage op d
  | .attributeError m => m
  | .otherError m => m

/-! ## `tools/_helpers.py` — track types, `require_timeline`, `find_item` -/

/-- The `TrackType` enum values from `constants.py` in declaration order;
`VALID_TRACK_TYPES = {t.value for t in TrackType}` is a set, so only
membership matters. -/
def VALID_TRACK_TYPES : List String := ["video", "audio", "subtitle"]

/-- Lexicographic comparison of char lists by code point — the ordering
Python's `sorted` uses on strings. -/
def charsLe : List Char → List Char → Bool
  | [], _ => true
  | _ :: _, [] => false
  | c :: cs, d :: ds => if c < d then true else if d < c then false else charsLe cs ds

/-- Python string `<=` (code-point lexicographic). -/
def strLe (a b : String) : Bool := charsLe a.data b.data

/-- Insertion of a string into a sorted list (ascending). -/
def insertSorted (x : String) : List String → List String
  | [] => [x]
  | y :: ys => if strLe x y then x :: y :: ys else y :: insertSorted x ys

/-- Python's `sorted` on a collection of strings (insertion sort — the
result is the ascending reordering, which is all `sorted` guarantees). -/
def sortStrings : List String → List String
  | [] => []
  | x :: xs => insertSorted x (sortStrings xs)

deriving instance DecidableEq for Except

/-- A timeline item as seen by `find_item`: an identity (so "the same object"
is expressible) and the outcome of calling `GetName()` on it — either a
name or a raised Python exception. -/
structure Item where
  itemId : Nat
  getName : Except PyError String
deriving DecidableEq, Repr

/-- The current timeline as seen by `find_item`:
`GetItemListInTrack(track_type, track_index)` returns a list of items or
`None` (modelled as `Option`). -/
structure TimelineW where
  getItemList : String → Int → Option (List Item)

/-- The external world visible to the lookup helpers: `api.timeline` yields
the current timeline or `None` when nothing is open.  (Connection failures
are modelled separately at the `ResolveAPI` layer.) -/
structure World where
  timeline : Option TimelineW

/-- External calls a lookup helper can make, logged in a trace. -/
inductive FCall where
  | getTimeline
  | getItemList
deriving DecidableEq, Repr

/-- `require_timeline` (_helpers.py lines 20-33): fetch the current timeline
(one external access) and raise `ResolveOperationFailed` when none is open. -/
def require_timeline (w : World) : Except PyError TimelineW × List FCall :=
  match w.timeline with
  | none =>
      (.error (.resolveOperationFailed "require_timeline" "No timeline is currently open."),
       [FCall.getTimeline])
  | some tl => (.ok tl, [FCall.getTimeline])

/-- Message of the invalid-track_type rejection (_helpers.py lines 77-81). -/
def invalidTrackTypeMsg (track_type : String) : String :=
  "Invalid track_type '" ++ track_type ++ "'. Must be one of: " ++
    String.intercalate ", " (sortStrings VALID_TRACK_TYPES) ++ "."

/-- Message of the non-positive-index rejection (_helpers.py lines 84-88). -/
def badIndexMsg (track_index : Int) : String :=
  "track_index must be >= 1, got " ++ toString track_index ++ "."

/-- Message of the empty-track failure (_helpers.py lines 94-99). -/
def emptyTrackMsg (track_type : String) (track_index : Int) (name : String) : String :=
  "Track '" ++ track_type ++ "' index " ++ toString track_index ++
    " has no items. Cannot find '" ++ name ++ "'."

/-- Message of the no-match failure (_helpers.py lines 110-113). -/
def notFoundMsg (name : String) (track_type : String) (track_index : Int) : String :=
  "Item '" ++ name ++ "' not found on " ++ track_type ++ " track " ++
    toString track_index ++ "."

/-- The `for item in items` loop of `find_item` (_helpers.py lines 101-108):
return the first item whose `GetName()` equals the target, skipping items
that raise `AttributeError`; any other exception propagates (`except
AttributeError: continue` catches nothing else).  `.ok none` means the loop
ran off the end without a match. -/
def scanItems (name : String) : List Item → Except PyError (Option Item)
  | [] => .ok none
  | item :: rest =>
      match item.getName with
      | .ok n => if n = name then .ok (some item) else scanItems name rest
      | .error (.attributeError _) => scanItems name rest
      | .error e => .error e

/-- `find_item` (_helpers.py lines 52-113): validate `track_type`, then
`track_index`, then fetch the timeline, enumerate the track (Python
`if not items:` is true for `None` and for the empty list), and linearly
scan for the first name match.  The second component is the trace of
external calls made. -/
def find_item (w : World) (name : String) (track_type : String) (track_index : Int) :
    Except PyError Item × List FCall :=
  if track_type ∉ VALID_TRACK_TYPES then
    (.error (.resolveOperationFailed "find_item" (invalidTrackTypeMsg track_type)), [])
  else if track_index < 1 then
    (.error (.resolveOperationFailed "find_item" (badIndexMsg track_index)), [])
  else
    match require_timeline w with
    | (.error e, calls) => (.error e, calls)
    | (.ok tl, calls) =>
        let calls := calls ++ [FCall.getItemList]
        match tl.getItemList track_type track_index with
        | none =>
            (.error (.resolveOperationFailed "find_item"
               (emptyTrackMsg track_type track_index name)), calls)
        | some [] =>
            (.error (.resolveOperationFailed "find_item"
               (emptyTrackMsg track_type track_index name)), calls)
        | some items =>
            match scanItems name items with
            | .error e => (.error e, calls)
            | .ok (some item) => (.ok item, calls)
            | .ok none =>
                (.error (.resolveOperationFailed "find_item"
                   (notFoundMsg name track_type track_index)), calls)

/-! ## `resolve_api.py` — the connection cache -/

/-- `_HEALTH_CHECK_TTL = 5.0` (resolve_api.py line 22): seconds a successful
health check stays fresh. -/
def HEALTH_CHECK_TTL : ℚ := 5

/-- The mutable fields of a `ResolveAPI` instance guarded by `_conn_lock`
(resolve_api.py lines 90-97).  The handle and the loaded script module are
opaque references (identified by a `Nat` / by `Unit`); `none` is Python
`None`. -/
structure ConnState where
  resolve : Option Nat
  scriptModule : Option Unit
  lastHealthCheck : ℚ
deriving DecidableEq, Repr

/-- `ResolveAPI.__init__` (resolve_api.py lines 90-97): no handle, no module,
`_last_health_check = 0.0`. -/
def ResolveAPI.initState : ConnState :=
  { resolve := none, scriptModule := none, lastHealthCheck := 0 }

/-- The class-level singleton slot `ResolveAPI._instance`.
`get_instance` (resolve_api.py lines 102-110) creates the instance on first
call and returns it; result paired with the updated slot. -/
def ResolveAPI.getInstance : Option ConnState → ConnState × Option ConnState
  | some s => (s, some s)
  | none => (ResolveAPI.initState, some ResolveAPI.initState)

/-- `ResolveAPI.reset` (resolve_api.py lines 112-116): drop the singleton. -/
def ResolveAPI.reset : Option ConnState → Option ConnState :=
  fun _ => none

/-- The behaviour of the outside world during one `_ensure_connected` call:
the two `time.monotonic()` readings (line 142 and line 158), whether
`GetVersion()` on the cached handle succeeds, whether
`import DaVinciResolveScript` succeeds (with the platform modules path used
in the failure message), and what `scriptapp("Resolve")` returns. -/
structure ConnEnv where
  now : ℚ
  now2 : ℚ
  getVersionOk : Bool
  importOk : Bool
  modulesPath : String
  scriptapp : Option Nat

/-- External calls the connection layer can make, logged in a trace. -/
inductive ExtCall where
  | getVersion
  | importModule
  | scriptapp
deriving DecidableEq, Repr

/-- `_load_resolve_script` (resolve_api.py lines 47-70): import the bridging
module (one external effect); on `ImportError` raise `ResolveNotRunning`
with the path in the message. -/
def _load_resolve_script (env : ConnEnv) : Except PyError Unit :=
  if env.importOk then .ok ()
  else
    .error (.resolveNotRunning
      ("Could not import DaVinciResolveScript. Looked in: " ++ env.modulesPath ++
        ". Make sure DaVinci Resolve is installed."))

/-- `ResolveAPI._connect` (resolve_api.py lines 121-129): load the script
module if not already loaded (caching it in `_script_module`), call
`scriptapp("Resolve")`, and raise `ResolveNotRunning()` (default message)
when it returns `None`.  Returns (result, updated state, external calls). -/
def _connect (env : ConnEnv) (s : ConnState) :
    Except PyError Nat × ConnState × List ExtCall :=
  match s.scriptModule with
  | none =>
      match _load_resolve_script env with
      | .error e => (.error e, s, [ExtCall.importModule])
      | .ok _ =>
          let s1 : ConnState := { s with scriptModule := some () }
          match env.scriptapp with
          | none => (.error (mkResolveNotRunning none), s1,
                     [ExtCall.importModule, ExtCall.scriptapp])
          | some r => (.ok r, s1, [ExtCall.importModule, ExtCall.scriptapp])
  | some _ =>
      match env.scriptapp with
      | none => (.error (mkResolveNotRunning none), s, [ExtCall.scriptapp])
      | some r => (.ok r, s, [ExtCall.scriptapp])

/-- Lines 157-159 of `_ensure_connected`: `self._resolve = self._connect()`
then `self._last_health_check = time.monotonic()` (the second clock
reading).  When `_connect` raised, the assignment never ran, so the state
is whatever `_connect` left behind. -/
def finishConnect (env : ConnEnv) (r : Except PyError Nat) (s : ConnState)
    (calls : List ExtCall) : Except PyError Nat × ConnState × List ExtCall :=
  match r with
  | .error e => (.error e, s, calls)
  | .ok h => (.ok h, { s with resolve := some h, lastHealthCheck := env.now2 }, calls)

/-- `ResolveAPI._ensure_connected` (resolve_api.py lines 131-159), run under
`_conn_lock`: return the cached handle untouched inside the freshness
window; otherwise probe it with `GetVersion()`, refreshing the timestamp on
success and nulling the handle (then reconnecting) on any exception; with
no usable cached handle, `_connect` and store the fresh handle with a new
timestamp. -/
def _ensure_connected (env : ConnEnv) (s : ConnState) :
    Except PyError Nat × ConnState × List ExtCall :=
  match s.resolve with
  | some h =>
      if env.now - s.lastHealthCheck < HEALTH_CHECK_TTL then
        (.ok h, s, [])
      else if env.getVersionOk then
        (.ok h, { s with lastHealthCheck := env.now }, [ExtCall.getVersion])
      else
        let out := _connect env { s with resolve := none }
        finishConnect env out.1 out.2.1 (ExtCall.getVersion :: out.2.2)
  | none =>
      let out := _connect env s
      finishConnect env out.1 out.2.1 out.2.2

/-! ## `resources/system_info.py` — the `resolve://system` resource -/

/-- A Python primitive as it appears inside a `GetVersion()` result list,
with its `str()` rendering. -/
inductive PyPrim where
  | int (n : Int)
  | str (s : String)
deriving DecidableEq, Repr

/-- Python `str(v)` on a primitive. -/
def PyPrim.pyStr : PyPrim → String
  | .int n => toString n
  | .str s => s

/-- Shape of the raw `GetVersion()` result: `isinstance(raw, (list, tuple))`
distinguishes a sequence of values from any scalar. -/
inductive RawVersion where
  | seq (xs : List PyPrim)
  | scalar (v : PyPrim)
deriving DecidableEq, Repr

/-- Python `x or default` for a string-valued call that may return `None`:
falsy (`None` or `""`) selects the default. -/
def pyOrString (v : Option String) (default : String) : String :=
  match v with
  | none => default
  | some s => if s = "" then default else s

/-- The external calls `system_info` makes, each possibly raising. -/
structure SysEnv where
  getResolve : Except PyError Unit
  getVersion : Except PyError RawVersion
  getProductName : Except PyError (Option String)
  getCurrentPage : Except PyError (Option String)

/-- The JSON document `system_info` serialises (we model the dict contents,
not the `json.dumps` encoding): the success shape with its three keys, the
fixed not-running shape with `null` fields, or the bare `{"error": str(exc)}`
shape. -/
inductive SysInfoDoc where
  | ok (version product current_page : String)
  | notRunningDoc
  | errorDoc (error : String)
deriving DecidableEq, Repr

/-- `system_info` (system_info.py lines 17-49): fetch the live handle, read
the version (joining list/tuple results with dots, `str()` otherwise), the
product name and the current page with their falsy fallbacks; a
`ResolveNotRunning` escaping the body yields the fixed not-running document,
any other exception yields `{"error": str(exc)}`. -/
def system_info (env : SysEnv) : SysInfoDoc :=
  let body : Except PyError (String × String × String) := do
    let _ ← env.getResolve
    let raw ← env.getVersion
    let version :=
      match raw with
      | .seq xs => String.intercalate "." (xs.map PyPrim.pyStr)
      | .scalar v => v.pyStr
    let product ← env.getProductName
    let page ← env.getCurrentPage
    pure (version, pyOrString product "DaVinci Resolve", pyOrString page "unknown")
  match body with
  | .ok (version, product, page) => .ok version product page
  | .error (.resolveNotRunning _) => .notRunningDoc
  | .error e => .errorDoc e.str

/-! ## `tools/project.py` — the per-tool exception boundary -/

/-- `project_list` (project.py lines 23-42).  The argument is the outcome of
the try-body's external calls (`get_instance` → `project_manager` →
`GetProjectListInCurrentFolder()`, which returns a list of names or `None`).
The body applies `or []`; the except-chain re-raises the two typed errors
unchanged, converts `AttributeError` to `ResolveNotRunning` with retry
guidance, and wraps anything else as `ResolveOperationFailed` carrying the
operation name. -/
def project_list (body : Except PyError (Option (List String))) :
    Except PyError (List String) :=
  match body with
  | .ok ps => .ok (ps.getD [])
  | .error (.resolveNotRunning m) => .error (.resolveNotRunning m)
  | .error (.resolveOperationFailed op d) => .error (.resolveOperationFailed op d)
  | .error (.attributeError m) =>
      .error (.resolveNotRunning
        ("Lost connection to Resolve (stale reference: " ++ m ++ "). Please retry."))
  | .error (.otherError m) => .error (.resolveOperationFailed "project_list" m)

/-- `color_set_node_enabled` (color.py lines 303-350): its `node_index`
validation and its exception boundary, with the try-body's outcome
(`find_item` + `item.SetNodeEnabled(...)`) as the argument.  Unlike the
standard boundary, `except AttributeError: return False` — the method may
not exist in the running Resolve version, so the tool deliberately returns
`False` instead of re-raising as `ResolveNotRunning` (the same shape is
used by the color-group tools). -/
def color_set_node_enabled (node_index : Int) (body : Except PyError Bool) :
    Except PyError Bool :=
  if node_index < 1 then
    .error (.resolveOperationFailed "color_set_node_enabled"
      "node_index must be >= 1 (1-based indexing).")
  else
    match body with
    | .ok b => .ok b
    | .error (.resolveNotRunning m) => .error (.resolveNotRunning m)
    | .error (.resolveOperationFailed op d) => .error (.resolveOperationFailed op d)
    | .error (.attributeError _) => .ok false
    | .error (.otherError m) =>
        .error (.resolveOperationFailed "color_set_node_enabled" m)

/-- An item the `find_item` scan passes over without returning: its name is
available but different, or reading its name raises `AttributeError`. -/
def scanSkips (name : String) (item : Item) : Prop :=
  (∃ n, item.getName = Except.ok n ∧ n ≠ name) ∨
  ∃ m, item.getName = Except.error (PyError.attributeError m)

/-! ## Helper lemmas -/

theorem string_data_head_append (a b : String) (c : Char)
    (h : a.data.head? = some c) : (a ++ b).data.head? = some c := by
  rw [String.data_append, List.head?_append, h]
  rfl

theorem string_ne_of_head_ne (s t : String) (c c' : Char)
    (hs : s.data.head? = some c) (ht : t.data.head? = some c') (hne : c ≠ c') :
    s ≠ t := by
  intro he
  rw [he] at hs
  rw [hs] at ht
  exact hne (Option.some.inj ht)

theorem emptyTrackMsg_head (tt : String) (ti : Int) (nm : String) :
    (emptyTrackMsg tt ti nm).data.head? = some 'T' := by
  unfold emptyTrackMsg
  repeat apply string_data_head_append
  decide

theorem notFoundMsg_head (nm tt : String) (ti : Int) :
    (notFoundMsg nm tt ti).data.head? = some 'I' := by
  unfold notFoundMsg
  repeat apply string_data_head_append
  decide

theorem invalidTrackTypeMsg_head (tt : String) :
    (invalidTrackTypeMsg tt).data.head? = some 'I' := by
  unfold invalidTrackTypeMsg
  repeat apply string_data_head_append
  decide

theorem badIndexMsg_head (ti : Int) :
    (badIndexMsg ti).data.head? = some 't' := by
  unfold badIndexMsg
  repeat apply string_data_head_append
  decide

theorem scanItems_append_skips (name : String) (pre rest : List Item)
    (hpre : ∀ x ∈ pre, scanSkips name x) :
    scanItems name (pre ++ rest) = scanItems name rest := by
  induction pre with
  | nil => rfl
  | cons x xs ih =>
      have hx := hpre x (List.mem_cons_self x xs)
      have hxs : ∀ y ∈ xs, scanSkips name y :=
        fun y hy => hpre y (List.mem_cons_of_mem x hy)
      rcases hx with ⟨n, hn, hne⟩ | ⟨m, hm⟩
      · rw [List.cons_append]
        simp only [scanItems, hn]
        rw [if_neg hne]
        exact ih hxs
      · rw [List.cons_append]
        simp only [scanItems, hm]
        exact ih hxs

theorem scanItems_all_skips (name : String) (items : List Item)
    (h : ∀ x ∈ items, scanSkips name x) :
    scanItems name items = .ok none := by
  have := scanItems_append_skips name items [] h
  rwa [List.append_nil] at this

/-! ## Claims -/

/-- C1: with a non-null cached handle and elapsed monotonic time since the
last successful health check strictly below the 5-second freshness window,
`_ensure_connected` returns the identical cached handle, makes no external
call (empty trace — no probe, no reconnection), and leaves both cache
fields (`_resolve` and `_last_health_check`) unchanged. -/
theorem c1_fresh_handle_returned_untouched
    (env : ConnEnv) (s : ConnState) (h : Nat)
    (hres : s.resolve = some h)
    (hfresh : env.now - s.lastHealthCheck < HEALTH_CHECK_TTL) :
    _ensure_connected env s = (.ok h, s, []) := by
  simp [_ensure_connected, hres, hfresh]

/-- Witness for C1 at a concrete cache state and clock. -/
theorem c1_fresh_handle_returned_untouched_witness :
    _ensure_connected ⟨1, 2, false, false, "p", none⟩
        ⟨some 7, none, 0⟩ =
      (.ok 7, ⟨some 7, none, 0⟩, []) :=
  c1_fresh_handle_returned_untouched ⟨1, 2, false, false, "p", none⟩
    ⟨some 7, none, 0⟩ 7 rfl (by norm_num [HEALTH_CHECK_TTL])

/-- C2: (a) with a cached handle whose freshness window has elapsed and a
raising `GetVersion` probe, `_ensure_connected` probes and then attempts a
fresh connection (the trace contains the probe and a module import or a
`scriptapp` request), and a successful `scriptapp` result is what is
returned and stored; (b) whenever there is no usable cached handle and
discovery fails to import the bridging module or `scriptapp` returns
`None`, the call raises `ResolveNotRunning` and no handle is stored. -/
theorem c2_stale_probe_failure_reconnects_or_not_running :
    (∀ (env : ConnEnv) (s : ConnState) (h : Nat),
        s.resolve = some h →
        ¬ env.now - s.lastHealthCheck < HEALTH_CHECK_TTL →
        env.getVersionOk = false →
        (ExtCall.getVersion ∈ (_ensure_connected env s).2.2 ∧
          (ExtCall.importModule ∈ (_ensure_connected env s).2.2 ∨
            ExtCall.scriptapp ∈ (_ensure_connected env s).2.2)) ∧
        (∀ r, env.scriptapp = some r →
          (s.scriptModule = some () ∨ env.importOk = true) →
          (_ensure_connected env s).1 = .ok r ∧
          (_ensure_connected env s).2.1.resolve = some r)) ∧
    (∀ (env : ConnEnv) (s : ConnState),
        (s.resolve = none ∨
          ∃ h, s.resolve = some h ∧
            ¬ env.now - s.lastHealthCheck < HEALTH_CHECK_TTL ∧
            env.getVersionOk = false) →
        ((s.scriptModule = none ∧ env.importOk = false) ∨ env.scriptapp = none) →
        (∃ m, (_ensure_connected env s).1 = .error (.resolveNotRunning m)) ∧
        (_ensure_connected env s).2.1.resolve = none) := by
  constructor
  · intro env s h hres hstale hgv
    obtain ⟨res, sm, lhc⟩ := s
    cases res with
    | none => exact absurd hres (by simp)
    | some h' =>
        obtain rfl : h' = h := by simpa using hres
        cases sm with
        | none =>
            cases himp : env.importOk with
            | false =>
                simp [_ensure_connected, _connect, _load_resolve_script,
                  finishConnect, hstale, hgv, himp]
            | true =>
                cases hsc : env.scriptapp with
                | none =>
                    simp [_ensure_connected, _connect, _load_resolve_script,
                      finishConnect, hstale, hgv, himp, hsc]
                | some r =>
                    simp [_ensure_connected, _connect, _load_resolve_script,
                      finishConnect, hstale, hgv, himp, hsc]
        | some u =>
            cases u
            cases hsc : env.scriptapp with
            | none =>
                simp [_ensure_connected, _connect, _load_resolve_script,
                  finishConnect, hstale, hgv, hsc]
            | some r =>
                simp [_ensure_connected, _connect, _load_resolve_script,
                  finishConnect, hstale, hgv, hsc]
  · intro env s hdead hfail
    have hconnect : ∀ (sm0 : Option Unit) (lhc0 : ℚ) (calls : List ExtCall),
        ((sm0 = none ∧ env.importOk = false) ∨ env.scriptapp = none) →
        (∃ m, (finishConnect env (_connect env ⟨none, sm0, lhc0⟩).1
            (_connect env ⟨none, sm0, lhc0⟩).2.1 calls).1 =
            .error (.resolveNotRunning m)) ∧
        (finishConnect env (_connect env ⟨none, sm0, lhc0⟩).1
            (_connect env ⟨none, sm0, lhc0⟩).2.1 calls).2.1.resolve = none := by
      intro sm0 lhc0 calls hf
      rcases hf with ⟨hsm, himp⟩ | hsc
      · subst hsm
        simp [_connect, _load_resolve_script, finishConnect, himp]
      · cases sm0 with
        | none =>
            cases himp : env.importOk with
            | false => simp [_connect, _load_resolve_script, finishConnect, himp]
            | true =>
                simp [_connect, _load_resolve_script, finishConnect, himp, hsc,
                  mkResolveNotRunning]
        | some u =>
            cases u
            simp [_connect, finishConnect, hsc, mkResolveNotRunning]
    obtain ⟨res, sm, lhc⟩ := s
    rcases hdead with hnone | ⟨h, hsome, hstale, hgv⟩
    · have hres : res = none := by simpa using hnone
      subst hres
      have := hconnect sm lhc (_connect env ⟨none, sm, lhc⟩).2.2
        (by simpa using hfail)
      simpa [_ensure_connected] using this
    · have hres : res = some h := by simpa using hsome
      subst hres
      have hstale' : ¬ env.now - lhc < HEALTH_CHECK_TTL := by simpa using hstale
      have := hconnect sm lhc
        (ExtCall.getVersion :: (_connect env ⟨none, sm, lhc⟩).2.2)
        (by simpa using hfail)
      simpa [_ensure_connected, hstale', hgv] using this

/-- Witness for C2 at concrete inputs: a stale handle whose probe fails and
whose reconnection attempt cannot import the bridging module; and an empty
cache whose `scriptapp` returns `None`. -/
theorem c2_stale_probe_failure_witness :
    (ExtCall.getVersion ∈
        (_ensure_connected ⟨10, 11, false, false, "p", none⟩ ⟨some 7, none, 0⟩).2.2) ∧
    ((_ensure_connected ⟨10, 11, false, true, "p", none⟩ ⟨none, some (), 0⟩).2.1.resolve
        = none) :=
  ⟨(c2_stale_probe_failure_reconnects_or_not_running.1
      ⟨10, 11, false, false, "p", none⟩ ⟨some 7, none, 0⟩ 7 rfl
      (by norm_num [HEALTH_CHECK_TTL]) rfl).1.1,
   (c2_stale_probe_failure_reconnects_or_not_running.2
      ⟨10, 11, false, true, "p", none⟩ ⟨none, some (), 0⟩
      (Or.inl rfl) (Or.inr rfl)).2⟩

/-- C3: the connection-cache invariant holds after every cache operation.
Construction and reset leave a null handle; and every `_ensure_connected`
call ends in one of exactly four ways: (1) both fields untouched with no
external call (fresh hit), (2) handle unchanged and `_last_health_check`
set to the probe's clock reading after a successful `GetVersion`, (3) a
fresh handle from `scriptapp` stored together with the post-connection
clock reading, or (4) a null handle (every path that learns the handle is
dead, or fails to obtain one, nulls it).  No path stores a handle without
also updating `_last_health_check`. -/
theorem c3_cache_invariant_every_path :
    ResolveAPI.initState.resolve = none ∧
    (∀ inst, ResolveAPI.getInstance (ResolveAPI.reset inst) =
        (ResolveAPI.initState, some ResolveAPI.initState)) ∧
    ∀ (env : ConnEnv) (s : ConnState),
      ((_ensure_connected env s).2.1 = s ∧ (_ensure_connected env s).2.2 = []) ∨
      ((_ensure_connected env s).2.1.resolve = s.resolve ∧
        (_ensure_connected env s).2.1.lastHealthCheck = env.now ∧
        env.getVersionOk = true) ∨
      (∃ r, env.scriptapp = some r ∧
        (_ensure_connected env s).2.1.resolve = some r ∧
        (_ensure_connected env s).2.1.lastHealthCheck = env.now2 ∧
        (_ensure_connected env s).1 = .ok r) ∨
      ((_ensure_connected env s).2.1.resolve = none ∧
        ∃ m, (_ensure_connected env s).1 = .error (.resolveNotRunning m)) := by
  refine ⟨rfl, fun inst => rfl, ?_⟩
  intro env s
  have hconn : ∀ (sm0 : Option Unit) (lhc0 : ℚ) (calls : List ExtCall),
      (∃ r, env.scriptapp = some r ∧
        (finishConnect env (_connect env ⟨none, sm0, lhc0⟩).1
            (_connect env ⟨none, sm0, lhc0⟩).2.1 calls).2.1.resolve = some r ∧
        (finishConnect env (_connect env ⟨none, sm0, lhc0⟩).1
            (_connect env ⟨none, sm0, lhc0⟩).2.1 calls).2.1.lastHealthCheck = env.now2 ∧
        (finishConnect env (_connect env ⟨none, sm0, lhc0⟩).1
            (_connect env ⟨none, sm0, lhc0⟩).2.1 calls).1 = .ok r) ∨
      ((finishConnect env (_connect env ⟨none, sm0, lhc0⟩).1
            (_connect env ⟨none, sm0, lhc0⟩).2.1 calls).2.1.resolve = none ∧
        ∃ m, (finishConnect env (_connect env ⟨none, sm0, lhc0⟩).1
            (_connect env ⟨none, sm0, lhc0⟩).2.1 calls).1 =
            .error (.resolveNotRunning m)) := by
    intro sm0 lhc0 calls
    cases sm0 with
    | none =>
        cases himp : env.importOk with
        | false =>
            exact Or.inr (by simp [_connect, _load_resolve_script, finishConnect, himp])
        | true =>
            cases hsc : env.scriptapp with
            | none =>
                exact Or.inr (by
                  simp [_connect, _load_resolve_script, finishConnect, himp, hsc,
                    mkResolveNotRunning])
            | some r =>
                exact Or.inl ⟨r, rfl, by
                  simp [_connect, _load_resolve_script, finishConnect, himp, hsc]⟩
    | some u =>
        cases u
        cases hsc : env.scriptapp with
        | none =>
            exact Or.inr (by simp [_connect, finishConnect, hsc, mkResolveNotRunning])
        | some r =>
            exact Or.inl ⟨r, rfl, by simp [_connect, finishConnect, hsc]⟩
  obtain ⟨res, sm, lhc⟩ := s
  cases res with
  | none =>
      rcases hconn sm lhc (_connect env ⟨none, sm, lhc⟩).2.2 with h3 | h4
      · exact Or.inr (Or.inr (Or.inl (by simpa [_ensure_connected] using h3)))
      · exact Or.inr (Or.inr (Or.inr (by simpa [_ensure_connected] using h4)))
  | some h =>
      by_cases hf : env.now - lhc < HEALTH_CHECK_TTL
      · exact Or.inl (by simp [_ensure_connected, hf])
      · cases hgv : env.getVersionOk with
        | true => exact Or.inr (Or.inl (by simp [_ensure_connected, hf, hgv]))
        | false =>
            rcases hconn sm lhc
              (ExtCall.getVersion :: (_connect env ⟨none, sm, lhc⟩).2.2) with h3 | h4
            · exact Or.inr (Or.inr (Or.inl
                (by simpa [_ensure_connected, hf, hgv] using h3)))
            · exact Or.inr (Or.inr (Or.inr
                (by simpa [_ensure_connected, hf, hgv] using h4)))

/-- C4: `find_item` with a `track_type` outside {video, audio, subtitle} or
with `track_index < 1` raises `ResolveOperationFailed` carrying the
constraint-specific message (the invalid-type message names the rejected
type; the index message states the `>= 1` bound and the rejected value),
and its external-call trace is empty: no timeline fetch, no item
enumeration. -/
theorem c4_validation_rejects_before_external_calls
    (w : World) (nm tt : String) (ti : Int)
    (hbad : tt ∉ VALID_TRACK_TYPES ∨ ti < 1) :
    (find_item w nm tt ti).2 = [] ∧
    (tt ∉ VALID_TRACK_TYPES →
      (find_item w nm tt ti).1 =
        .error (.resolveOperationFailed "find_item" (invalidTrackTypeMsg tt))) ∧
    (tt ∈ VALID_TRACK_TYPES → ti < 1 →
      (find_item w nm tt ti).1 =
        .error (.resolveOperationFailed "find_item" (badIndexMsg ti))) := by
  rcases hbad with htt | hti
  · refine ⟨?_, ?_, ?_⟩ <;> simp [find_item, htt]
  · by_cases htt : tt ∈ VALID_TRACK_TYPES
    · refine ⟨?_, ?_, ?_⟩ <;> simp [find_item, htt, hti]
    · refine ⟨?_, ?_, ?_⟩ <;> simp [find_item, htt, hti]

/-- Witness for C4: `track_type="bogus"` and `track_index=0` are each
rejected with an empty trace. -/
theorem c4_validation_rejects_witness :
    (find_item ⟨none⟩ "x" "bogus" 1).2 = [] ∧
    (find_item ⟨none⟩ "x" "bogus" 1).1 =
      .error (.resolveOperationFailed "find_item" (invalidTrackTypeMsg "bogus")) ∧
    (find_item ⟨none⟩ "x" "video" 0).2 = [] ∧
    (find_item ⟨none⟩ "x" "video" 0).1 =
      .error (.resolveOperationFailed "find_item" (badIndexMsg 0)) := by
  obtain ⟨h1, h2, -⟩ := c4_validation_rejects_before_external_calls
    ⟨none⟩ "x" "bogus" 1 (Or.inl (by decide))
  obtain ⟨h3, -, h4⟩ := c4_validation_rejects_before_external_calls
    ⟨none⟩ "x" "video" 0 (Or.inr (by decide))
  exact ⟨h1, h2 (by decide), h3, h4 (by decide) (by decide)⟩

/-- C10 (implicit): `find_item` checks `track_type` before `track_index`,
so when both are invalid the single raised error is the invalid-track_type
one — whose message names the rejected type and lists the valid values —
and never the track_index error. -/
theorem c10_track_type_validated_first
    (w : World) (nm tt : String) (ti : Int)
    (htt : tt ∉ VALID_TRACK_TYPES) (_hti : ti < 1) :
    find_item w nm tt ti =
      (.error (.resolveOperationFailed "find_item" (invalidTrackTypeMsg tt)), []) ∧
    invalidTrackTypeMsg tt =
      "Invalid track_type '" ++ tt ++ "'. Must be one of: audio, subtitle, video." ∧
    (find_item w nm tt ti).1 ≠
      .error (.resolveOperationFailed "find_item" (badIndexMsg ti)) := by
  have hfi : find_item w nm tt ti =
      (.error (.resolveOperationFailed "find_item" (invalidTrackTypeMsg tt)), []) := by
    simp [find_item, htt]
  refine ⟨hfi, ?_, ?_⟩
  · unfold invalidTrackTypeMsg
    rw [show String.intercalate ", " (sortStrings VALID_TRACK_TYPES) =
        "audio, subtitle, video" by decide]
    rw [String.append_assoc _ "'. Must be one of: " "audio, subtitle, video",
      String.append_assoc _ ("'. Must be one of: " ++ "audio, subtitle, video") "."]
    rfl
  · rw [hfi]
    intro hcontra
    simp only [Except.error.injEq, PyError.resolveOperationFailed.injEq,
      true_and] at hcontra
    exact string_ne_of_head_ne _ _ 'I' 't' (invalidTrackTypeMsg_head tt)
      (badIndexMsg_head ti) (by decide) hcontra

/-- Witness for C10: with `track_type="bogus"` and `track_index=0` the
invalid-track_type error is the one raised. -/
theorem c10_track_type_validated_first_witness :
    find_item ⟨none⟩ "x" "bogus" 0 =
      (.error (.resolveOperationFailed "find_item" (invalidTrackTypeMsg "bogus")), []) ∧
    invalidTrackTypeMsg "bogus" =
      "Invalid track_type 'bogus'. Must be one of: audio, subtitle, video." :=
  ⟨(c10_track_type_validated_first ⟨none⟩ "x" "bogus" 0 (by decide) (by decide)).1,
   (c10_track_type_validated_first ⟨none⟩ "x" "bogus" 0 (by decide) (by decide)).2.1⟩

/-- C5 counterexample: on video track 1 the item list holds an item whose
`GetName()` raises a non-`AttributeError` exception followed by an item
named "Clip A"; the premise of C5 holds (the list is non-empty and an
item's name equals the searched name), yet `find_item` propagates the
exception instead of returning the first matching item — the guard catches
only `AttributeError`. -/
theorem c5_counterexample :
    (⟨1, Except.ok "Clip A"⟩ : Item) ∈
      [(⟨0, Except.error (PyError.otherError "boom")⟩ : Item),
       ⟨1, Except.ok "Clip A"⟩] ∧
    (⟨1, Except.ok "Clip A"⟩ : Item).getName = Except.ok "Clip A" ∧
    (find_item
        ⟨some ⟨fun _ _ => some [⟨0, .error (.otherError "boom")⟩,
          ⟨1, .ok "Clip A"⟩]⟩⟩ "Clip A" "video" 1).1 =
      .error (.otherError "boom") ∧
    (find_item
        ⟨some ⟨fun _ _ => some [⟨0, .error (.otherError "boom")⟩,
          ⟨1, .ok "Clip A"⟩]⟩⟩ "Clip A" "video" 1).1 ≠
      .ok ⟨1, .ok "Clip A"⟩ := by
  refine ⟨by decide, rfl, rfl, by decide⟩

/-- C5 amended: on a valid call whose track items decompose as
`pre ++ it :: post` where `it`'s name equals the searched name and every
item of `pre` is passed over by the scan (name readable but different, or
name access raising `AttributeError`), `find_item` returns `it` — the first
match in enumeration order — regardless of any later duplicate in `post`. -/
theorem c5_first_match_returned
    (w : World) (nm tt : String) (ti : Int) (tl : TimelineW)
    (pre post : List Item) (it : Item)
    (htt : tt ∈ VALID_TRACK_TYPES) (hti : ¬ ti < 1)
    (htl : w.timeline = some tl)
    (hitems : tl.getItemList tt ti = some (pre ++ it :: post))
    (hpre : ∀ x ∈ pre, scanSkips nm x)
    (hit : it.getName = Except.ok nm) :
    (find_item w nm tt ti).1 = .ok it := by
  have hscan : scanItems nm (pre ++ it :: post) = .ok (some it) := by
    rw [scanItems_append_skips nm pre (it :: post) hpre]
    simp [scanItems, hit]
  obtain ⟨a, as, hcons⟩ : ∃ a as, pre ++ it :: post = a :: as := by
    cases pre with
    | nil => exact ⟨it, post, rfl⟩
    | cons p ps => exact ⟨p, ps ++ it :: post, rfl⟩
  rw [hcons] at hitems hscan
  simp [find_item, htt, hti, require_timeline, htl, hitems, hscan]

/-- Witness for the amended C5: a stale (AttributeError) item, the first
"Clip A", then a duplicate "Clip A"; the first match (item 1) is returned. -/
theorem c5_first_match_returned_witness :
    (find_item
        ⟨some ⟨fun _ _ => some [⟨0, .error (.attributeError "stale")⟩,
          ⟨1, .ok "Clip A"⟩, ⟨2, .ok "Clip A"⟩]⟩⟩ "Clip A" "video" 1).1 =
      .ok ⟨1, .ok "Clip A"⟩ :=
  c5_first_match_returned
    ⟨some ⟨fun _ _ => some [⟨0, .error (.attributeError "stale")⟩,
      ⟨1, .ok "Clip A"⟩, ⟨2, .ok "Clip A"⟩]⟩⟩ "Clip A" "video" 1
    ⟨fun _ _ => some [⟨0, .error (.attributeError "stale")⟩,
      ⟨1, .ok "Clip A"⟩, ⟨2, .ok "Clip A"⟩]⟩
    [⟨0, .error (.attributeError "stale")⟩] [⟨2, .ok "Clip A"⟩]
    ⟨1, .ok "Clip A"⟩ (by decide) (by decide) rfl rfl
    (by simp [scanSkips]) rfl

/-- C6 counterexample: an item whose name access raises a
non-`AttributeError` exception aborts the scan — the matching item placed
after it is not found, contradicting "for every item whose name access
raises, the scan skips that item". -/
theorem c6_counterexample :
    scanItems "Clip B"
        [⟨0, .error (.otherError "KeyError: 7")⟩, ⟨1, .ok "Clip B"⟩] =
      .error (.otherError "KeyError: 7") ∧
    scanItems "Clip B"
        [⟨0, .error (.otherError "KeyError: 7")⟩, ⟨1, .ok "Clip B"⟩] ≠
      .ok (some ⟨1, .ok "Clip B"⟩) ∧
    (find_item
        ⟨some ⟨fun _ _ => some [⟨0, .error (.otherError "KeyError: 7")⟩,
          ⟨1, .ok "Clip B"⟩]⟩⟩ "Clip B" "video" 1).1 =
      .error (.otherError "KeyError: 7") := by
  refine ⟨rfl, by decide, rfl⟩

/-- C6 amended: during `find_item`'s linear scan, every item whose name
access raises `AttributeError` is skipped and the scan continues: a prefix
of such items contributes nothing to the scan result, and a matching item
positioned after them is still found and returned. -/
theorem c6_attribute_error_items_skipped :
    (∀ (nm : String) (pre rest : List Item),
        (∀ x ∈ pre, ∃ m, x.getName = Except.error (PyError.attributeError m)) →
        scanItems nm (pre ++ rest) = scanItems nm rest) ∧
    (∀ (nm : String) (pre : List Item) (it : Item) (post : List Item),
        (∀ x ∈ pre, ∃ m, x.getName = Except.error (PyError.attributeError m)) →
        it.getName = Except.ok nm →
        scanItems nm (pre ++ it :: post) = .ok (some it)) := by
  have hskip : ∀ (nm : String) (pre rest : List Item),
      (∀ x ∈ pre, ∃ m, x.getName = Except.error (PyError.attributeError m)) →
      scanItems nm (pre ++ rest) = scanItems nm rest :=
    fun nm pre rest h =>
      scanItems_append_skips nm pre rest (fun x hx => Or.inr (h x hx))
  refine ⟨hskip, ?_⟩
  intro nm pre it post h hit
  rw [hskip nm pre (it :: post) h]
  simp [scanItems, hit]

/-- Witness for the amended C6: one stale item before "Clip A". -/
theorem c6_attribute_error_items_skipped_witness :
    scanItems "Clip A"
        ([⟨0, .error (.attributeError "stale")⟩] ++ [⟨1, .ok "Clip A"⟩]) =
      scanItems "Clip A" [⟨1, .ok "Clip A"⟩] ∧
    scanItems "Clip A"
        ([⟨0, .error (.attributeError "stale")⟩] ++ ⟨1, .ok "Clip A"⟩ :: []) =
      .ok (some ⟨1, .ok "Clip A"⟩) :=
  ⟨c6_attribute_error_items_skipped.1 "Clip A"
      [⟨0, .error (.attributeError "stale")⟩] [⟨1, .ok "Clip A"⟩]
      (by simp),
   c6_attribute_error_items_skipped.2 "Clip A"
      [⟨0, .error (.attributeError "stale")⟩] ⟨1, .ok "Clip A"⟩ []
      (by simp) rfl⟩

/-- C7 counterexample: a valid track whose items contain no name match —
item 0 is named "Clip A" (not the searched "Clip C") and item 1's name
access raises a non-`AttributeError` exception — on which `find_item`
propagates that foreign exception instead of raising the no-match
`ResolveOperationFailed` whose message carries the searched name and track
coordinates: the claim's "no item matches the name" condition does not
always surface the not-found reason. -/
theorem c7_counterexample :
    (⟨0, Except.ok "Clip A"⟩ : Item).getName ≠ Except.ok "Clip C" ∧
    (find_item ⟨some ⟨fun _ _ => some [⟨0, .ok "Clip A"⟩,
        ⟨1, .error (.otherError "IndexError: 3")⟩]⟩⟩ "Clip C" "video" 1).1 =
      .error (.otherError "IndexError: 3") ∧
    (find_item ⟨some ⟨fun _ _ => some [⟨0, .ok "Clip A"⟩,
        ⟨1, .error (.otherError "IndexError: 3")⟩]⟩⟩ "Clip C" "video" 1).1 ≠
      .error (.resolveOperationFailed "find_item"
        (notFoundMsg "Clip C" "video" 1)) := by
  refine ⟨by decide, rfl, by decide⟩

/-- C7 amended: the three runtime failures of `find_item` — no timeline
open, empty track, and no matching name where every item either yields a
non-matching name or raises `AttributeError` on name access — are all
raised as `ResolveOperationFailed` (one error kind) with three
pairwise-distinct reasons, and the no-match message contains the searched
name, the track type and the track index.  (An item raising any other
exception makes that exception propagate instead of the no-match error.) -/
theorem c7_distinct_runtime_failure_reasons
    (w : World) (nm tt : String) (ti : Int) (tl : TimelineW)
    (htt : tt ∈ VALID_TRACK_TYPES) (hti : ¬ ti < 1) :
    (w.timeline = none →
      (find_item w nm tt ti).1 =
        .error (.resolveOperationFailed "require_timeline"
          "No timeline is currently open.")) ∧
    (w.timeline = some tl →
      tl.getItemList tt ti = none ∨ tl.getItemList tt ti = some [] →
      (find_item w nm tt ti).1 =
        .error (.resolveOperationFailed "find_item" (emptyTrackMsg tt ti nm))) ∧
    (∀ items, w.timeline = some tl → tl.getItemList tt ti = some items →
      items ≠ [] → (∀ x ∈ items, scanSkips nm x) →
      (find_item w nm tt ti).1 =
        .error (.resolveOperationFailed "find_item" (notFoundMsg nm tt ti))) ∧
    notFoundMsg nm tt ti =
      "Item '" ++ nm ++ "' not found on " ++ tt ++ " track " ++
        toString ti ++ "." ∧
    PyError.resolveOperationFailed "require_timeline"
        "No timeline is currently open." ≠
      PyError.resolveOperationFailed "find_item" (emptyTrackMsg tt ti nm) ∧
    PyError.resolveOperationFailed "require_timeline"
        "No timeline is currently open." ≠
      PyError.resolveOperationFailed "find_item" (notFoundMsg nm tt ti) ∧
    PyError.resolveOperationFailed "find_item" (emptyTrackMsg tt ti nm) ≠
      PyError.resolveOperationFailed "find_item" (notFoundMsg nm tt ti) := by
  refine ⟨?_, ?_, ?_, rfl, by simp, by simp, ?_⟩
  · intro h
    simp [find_item, htt, hti, require_timeline, h]
  · intro h hcase
    rcases hcase with h0 | h0 <;>
      simp [find_item, htt, hti, require_timeline, h, h0]
  · intro items h hlist hne hall
    have hscan := scanItems_all_skips nm items hall
    rcases items with _ | ⟨a, as⟩
    · exact absurd rfl hne
    · simp [find_item, htt, hti, require_timeline, h, hlist, hscan]
  · intro h
    simp only [PyError.resolveOperationFailed.injEq, true_and] at h
    exact string_ne_of_head_ne _ _ 'T' 'I' (emptyTrackMsg_head tt ti nm)
      (notFoundMsg_head nm tt ti) (by decide) h

/-- Witness for C7 at concrete worlds: no timeline; an empty video track 2;
and a track with "Clip A"/"Clip B" searched for "Clip C". -/
theorem c7_distinct_runtime_failure_reasons_witness :
    (find_item ⟨none⟩ "Clip C" "video" 1).1 =
      .error (.resolveOperationFailed "require_timeline"
        "No timeline is currently open.") ∧
    (find_item ⟨some ⟨fun _ _ => some []⟩⟩ "Clip C" "video" 2).1 =
      .error (.resolveOperationFailed "find_item" (emptyTrackMsg "video" 2 "Clip C")) ∧
    (find_item ⟨some ⟨fun _ _ => some [⟨0, .ok "Clip A"⟩, ⟨1, .ok "Clip B"⟩]⟩⟩
        "Clip C" "video" 1).1 =
      .error (.resolveOperationFailed "find_item" (notFoundMsg "Clip C" "video" 1)) ∧
    notFoundMsg "Clip C" "video" 1 = "Item 'Clip C' not found on video track 1." :=
  ⟨(c7_distinct_runtime_failure_reasons ⟨none⟩ "Clip C" "video" 1
      ⟨fun _ _ => none⟩ (by decide) (by decide)).1 rfl,
   (c7_distinct_runtime_failure_reasons ⟨some ⟨fun _ _ => some []⟩⟩
      "Clip C" "video" 2 ⟨fun _ _ => some []⟩ (by decide) (by decide)).2.1
      rfl (Or.inr rfl),
   (c7_distinct_runtime_failure_reasons
      ⟨some ⟨fun _ _ => some [⟨0, .ok "Clip A"⟩, ⟨1, .ok "Clip B"⟩]⟩⟩
      "Clip C" "video" 1
      ⟨fun _ _ => some [⟨0, .ok "Clip A"⟩, ⟨1, .ok "Clip B"⟩]⟩
      (by decide) (by decide)).2.2.1
      [⟨0, .ok "Clip A"⟩, ⟨1, .ok "Clip B"⟩] rfl rfl (by decide)
      (by
        intro x hx
        simp only [List.mem_cons, List.not_mem_nil, or_false] at hx
        rcases hx with rfl | rfl
        · exact Or.inl ⟨"Clip A", rfl, by decide⟩
        · exact Or.inl ⟨"Clip B", rfl, by decide⟩),
   ((c7_distinct_runtime_failure_reasons ⟨none⟩ "Clip C" "video" 1
      ⟨fun _ _ => none⟩ (by decide) (by decide)).2.2.2.1).trans (by decide)⟩

/-- C8: when `GetVersion()` returns a list/tuple, the system-info resource
surfaces the version as the elements' `str()` renderings joined with dots;
the literal list `[19, 1, 2]` renders as `"19.1.2"`. -/
theorem c8_version_list_joined_with_dots
    (env : SysEnv) (xs : List PyPrim) (product page : Option String)
    (h1 : env.getResolve = .ok ())
    (h2 : env.getVersion = .ok (.seq xs))
    (h3 : env.getProductName = .ok product)
    (h4 : env.getCurrentPage = .ok page) :
    system_info env =
      .ok (String.intercalate "." (xs.map PyPrim.pyStr))
        (pyOrString product "DaVinci Resolve") (pyOrString page "unknown") ∧
    String.intercalate "."
        ([PyPrim.int 19, PyPrim.int 1, PyPrim.int 2].map PyPrim.pyStr) =
      "19.1.2" := by
  constructor
  · simp [system_info, h1, h2, h3, h4, Bind.bind, Except.bind, Pure.pure, Except.pure]
  · decide

/-- Witness for C8: the raw version `[19, 1, 2]` surfaces as `"19.1.2"`. -/
theorem c8_version_list_joined_with_dots_witness :
    system_info ⟨.ok (), .ok (.seq [.int 19, .int 1, .int 2]), .ok none, .ok none⟩ =
      .ok "19.1.2" "DaVinci Resolve" "unknown" :=
  ((c8_version_list_joined_with_dots
      ⟨.ok (), .ok (.seq [.int 19, .int 1, .int 2]), .ok none, .ok none⟩
      [.int 19, .int 1, .int 2] none none rfl rfl rfl rfl).1).trans (by decide)

/-- C9 counterexample: `color_set_node_enabled` is a tool operation whose
boundary does NOT re-raise an escaping `AttributeError` as
`ResolveNotRunning`: per its docstring the missing bridge method means the
feature is unsupported in the running Resolve version, and the call
returns `False` successfully — so "for every tool operation, an
AttributeError ... is re-raised as NotRunning" is false on the code. -/
theorem c9_counterexample :
    color_set_node_enabled 1
        (.error (.attributeError
          "'TimelineItem' object has no attribute 'SetNodeEnabled'")) =
      .ok false ∧
    color_set_node_enabled 1
        (.error (.attributeError
          "'TimelineItem' object has no attribute 'SetNodeEnabled'")) ≠
      .error (mkResolveNotRunning none) := by
  refine ⟨rfl, by decide⟩

/-- C9 amended: tool operations using the standard boundary (`project_list`
is the canonical instance) re-raise an escaping `AttributeError` as
`ResolveNotRunning` with retry guidance, wrap any other unexpected
exception as `ResolveOperationFailed` carrying the operation name (whose
rendered message starts with that name), and propagate already-typed
errors unchanged; the version-dependent color tools instead return `False`
on `AttributeError` (see the counterexample), and the database tools
re-raise it as `ResolveNotRunning` with version guidance rather than retry
guidance. -/
theorem c9_tool_boundary_exception_wrapping :
    (∀ m, project_list (.error (.attributeError m)) =
        .error (.resolveNotRunning
          ("Lost connection to Resolve (stale reference: " ++ m ++
            "). Please retry."))) ∧
    (∀ m, project_list (.error (.otherError m)) =
        .error (.resolveOperationFailed "project_list" m)) ∧
    (∀ m, resolveOperationFailedMessage "project_list" m =
        "Resolve operation failed: project_list" ++
          (if m = "" then "" else " — " ++ m)) ∧
    (∀ m, project_list (.error (.resolveNotRunning m)) =
        .error (.resolveNotRunning m)) ∧
    (∀ op d, project_list (.error (.resolveOperationFailed op d)) =
        .error (.resolveOperationFailed op d)) := by
  refine ⟨fun m => rfl, fun m => rfl, ?_, fun m => rfl, fun op d => rfl⟩
  intro m
  unfold resolveOperationFailedMessage
  by_cases hm : m = ""
  · subst hm
    simp
  · rw [if_neg hm, if_neg hm]
    rw [show ("Resolve operation failed: " ++ "project_list") =
        "Resolve operation failed: project_list" by decide]
    rw [String.append_assoc]
